import Mathlib

/-!
Verification of the point-in-polygon predicate `contains` from `inPolygon.py`.

The module exposes a single function
`contains(polyx, polyy, linex, liney)` that classifies one or more query
points against a closed polygon by the ray-casting crossing test.  We embed
the function shallowly over ℚ (the coordinates are "finite real numbers";
every claim is about rational-expressible behaviour):

* `lines` embeds the local generator `lines()` (source lines 67-75) that
  yields the closed edge list, starting from the wrap-around edge
  (last vertex, first vertex);
* `pointInPolygon` embeds the per-point crossing-parity loop
  (source lines 80-84);
* `maskFor` embeds the loop over query points filling `mask`
  (source lines 77-85);
* `contains` embeds the whole function, validation included
  (source lines 13-91).
-/

namespace InPolygon

/-- A vertex or query point: a pair of coordinates. -/
abbrev Point : Type := ℚ × ℚ

/-- The distinct error kinds of the validation layer, one per `raise` site:
`InvalidArgumentType` for the `TypeError` at line 39, `DimensionMismatch`
for the `ValueError`s at lines 41 and 64, `InsufficientVertices` for the
`ValueError` at line 43. -/
inductive Err : Type where
  | InvalidArgumentType : Err
  | DimensionMismatch : Err
  | InsufficientVertices : Err
deriving DecidableEq

/-- A query coordinate argument: either a single scalar value or an
iterable sequence of values (`linex` / `liney` in the source accept both). -/
inductive QueryInput : Type where
  | scalar : ℚ → QueryInput
  | seq : List ℚ → QueryInput
deriving DecidableEq

/-- The value `contains` returns on success: a single boolean when both
query arguments were scalars, otherwise an array of booleans. -/
inductive ContainsResult : Type where
  | single : Bool → ContainsResult
  | many : List Bool → ContainsResult
deriving DecidableEq

/-- `np.asarray([v])` for a scalar, `np.asarray(vs)` for an iterable
(source lines 47-61): the resolved 1-D coordinate array. -/
def resolve : QueryInput → List ℚ
  | QueryInput.scalar v => [v]
  | QueryInput.seq vs => vs

/-- Whether an argument entered as a scalar: the source keeps
`single_val = True` only when neither `linex` nor `liney` is iterable. -/
def isScalar : QueryInput → Bool
  | QueryInput.scalar _ => true
  | QueryInput.seq _ => false

/-- The loop body of the generator `lines()` (source lines 71-75): the
cursor `p0` starts at the last vertex and each vertex `p1` of the list
yields the edge `(p0, p1)` before becoming the new cursor. -/
def linesFrom (p0 : Point) : List Point → List (Point × Point)
  | [] => []
  | p1 :: rest => (p0, p1) :: linesFrom p1 rest

/-- The generator `lines()` (source lines 67-75): the closed edge list of
the polygon, started from the cursor `polyx[-1], polyy[-1]`.  (On an empty
vertex list the source would fail on `polyx[-1]`; we return no edges, a
case no claim touches since validation demands at least 3 vertices.) -/
def lines (vs : List Point) : List (Point × Point) :=
  match vs.getLast? with
  | none => []
  | some pl => linesFrom pl vs

/-- The straddle test `(p0[1] > y) != (p1[1] > y)` of source line 83. -/
def straddle (p0 p1 : Point) (y : ℚ) : Bool :=
  decide (p0.2 > y) != decide (p1.2 > y)

/-- The interpolated crossing abscissa
`(p1[0]-p0[0])*(y-p0[1])/(p1[1]-p0[1]) + p0[0]` of source line 83. -/
def xCross (p0 p1 : Point) (y : ℚ) : ℚ :=
  (p1.1 - p0.1) * (y - p0.2) / (p1.2 - p0.2) + p0.1

/-- The full edge condition of source line 83: the edge straddles the
horizontal line at height `y` and the query abscissa lies strictly left of
the crossing.  The second conjunct (holding the division) is evaluated
only when the first holds, as in Python's short-circuit `and`. -/
def edgeToggles (p0 p1 : Point) (x y : ℚ) : Bool :=
  straddle p0 p1 y && decide (x < xCross p0 p1 y)

/-- One step of the parity loop (source lines 83-84):
`result = not result` when the edge condition holds. -/
def toggleStep (x y : ℚ) (result : Bool) (e : Point × Point) : Bool :=
  if edgeToggles e.1 e.2 x y then !result else result

/-- The per-point classification loop (source lines 80-84): `result`
starts at `False` and is toggled once per edge satisfying the condition of
line 83; the final value is the point's containment verdict. -/
def pointInPolygon (vs : List Point) (x y : ℚ) : Bool :=
  (lines vs).foldl (toggleStep x y) false

/-- The loop over query points (source lines 77-85): `mask[i]` is the
verdict for the point `(linex[i], liney[i])`.  The source iterates over
`linex` and indexes `liney` at the same position; with the equal lengths
guaranteed by the shape check this is the zip. -/
def maskFor (vs : List Point) (lx ly : List ℚ) : List Bool :=
  (lx.zip ly).map (fun p => pointInPolygon vs p.1 p.2)

/-- Source line 40 reads `if len != len(polyy):`.  The left operand is the
Python builtin function `len` itself, not `len(polyx)`: a builtin function
object never equals an integer, so in Python the comparison is `True` for
every argument and the branch raises unconditionally.  We embed the
condition as the constant it denotes. -/
def lenMismatchCheck (polyx polyy : List ℚ) : Bool := true

/-- The function `contains(polyx, polyy, linex, liney)` (source lines
13-91), validation included, over already-iterable polygon arguments
(the `iter()` probe of lines 34-39 cannot fail on lists).  In source
order: the (defective) polygon length check of line 40, the vertex-count
check of line 42, scalar/array resolution of the query arguments, the
shape check of line 63, the mask loop, and the final recast of the mask
to a single boolean when both query arguments were scalars. -/
def contains (polyx polyy : List ℚ) (linex liney : QueryInput) :
    Except Err ContainsResult :=
  if lenMismatchCheck polyx polyy then Except.error Err.DimensionMismatch
  else if polyx.length < 3 then Except.error Err.InsufficientVertices
  else
    let lx := resolve linex
    let ly := resolve liney
    let single_val := isScalar linex && isScalar liney
    if lx.length ≠ ly.length then Except.error Err.DimensionMismatch
    else
      let mask := maskFor (polyx.zip polyy) lx ly
      if single_val then Except.ok (ContainsResult.single (mask.headD false))
      else Except.ok (ContainsResult.many mask)

/-- Every call with iterable polygon arguments raises at line 40: the
check `len != len(polyy)` compares the builtin to an integer and is
always true. -/
theorem contains_eq_error (polyx polyy : List ℚ) (linex liney : QueryInput) :
    contains polyx polyy linex liney = Except.error Err.DimensionMismatch := rfl

/-- C2: for every pair of iterable polygon coordinate inputs whose lengths
differ, `contains` fails with a `DimensionMismatch` error, before any
geometric computation.  (It does so degenerately: the defective check at
line 40 raises this error for every input, mismatched or not.) -/
theorem c2_polygon_length_mismatch (polyx polyy : List ℚ)
    (linex liney : QueryInput) (h : polyx.length ≠ polyy.length) :
    contains polyx polyy linex liney = Except.error Err.DimensionMismatch :=
  contains_eq_error polyx polyy linex liney

theorem c2_polygon_length_mismatch_witness :
    ([0, 1, 2] : List ℚ).length ≠ ([0, 1] : List ℚ).length ∧
      contains [0, 1, 2] [0, 1] (QueryInput.scalar 0) (QueryInput.scalar 0) =
        Except.error Err.DimensionMismatch :=
  ⟨by decide,
    c2_polygon_length_mismatch [0, 1, 2] [0, 1]
      (QueryInput.scalar 0) (QueryInput.scalar 0) (by decide)⟩

/-- C3: for every pair of query inputs that resolve to different shapes —
one a scalar and the other a sequence, or two sequences of different
length — `contains` fails with a `DimensionMismatch` error.  (The error is
raised already by the defective polygon length check at line 40, which
fires for every input; the query shape check at line 63 is unreachable.) -/
theorem c3_query_shape_mismatch (polyx polyy : List ℚ)
    (linex liney : QueryInput)
    (h : (∃ v w, linex = QueryInput.scalar v ∧ liney = QueryInput.seq w) ∨
      (∃ v w, linex = QueryInput.seq v ∧ liney = QueryInput.scalar w) ∨
      (∃ v w, linex = QueryInput.seq v ∧ liney = QueryInput.seq w ∧
        v.length ≠ w.length)) :
    contains polyx polyy linex liney = Except.error Err.DimensionMismatch :=
  contains_eq_error polyx polyy linex liney

theorem c3_query_shape_mismatch_witness :
    ((∃ v w, QueryInput.scalar (0 : ℚ) = QueryInput.scalar v ∧
        QueryInput.seq [1, 2] = QueryInput.seq w) ∨
      (∃ v w, QueryInput.scalar (0 : ℚ) = QueryInput.seq v ∧
        QueryInput.seq [1, 2] = QueryInput.scalar w) ∨
      (∃ v w, QueryInput.scalar (0 : ℚ) = QueryInput.seq v ∧
        QueryInput.seq [1, 2] = QueryInput.seq w ∧ v.length ≠ w.length)) ∧
      contains [0, 4, 4, 0] [0, 0, 4, 4]
          (QueryInput.scalar 0) (QueryInput.seq [1, 2]) =
        Except.error Err.DimensionMismatch :=
  ⟨Or.inl ⟨0, [1, 2], rfl, rfl⟩,
    c3_query_shape_mismatch [0, 4, 4, 0] [0, 0, 4, 4]
      (QueryInput.scalar 0) (QueryInput.seq [1, 2])
      (Or.inl ⟨0, [1, 2], rfl, rfl⟩)⟩

/-- C4 (code bug): with the square polygon (0,0),(4,0),(4,4),(0,4) and the
scalar query point (1,1), the code raises `DimensionMismatch` at line 40
instead of returning the single boolean the spec promises; the
classification loop itself would have produced `true` for this point. -/
theorem c4_scalar_shape_bug :
    contains [0, 4, 4, 0] [0, 0, 4, 4]
        (QueryInput.scalar 1) (QueryInput.scalar 1) =
      Except.error Err.DimensionMismatch ∧
      maskFor [(0, 0), (4, 0), (4, 4), (0, 4)] [1] [1] = [true] :=
  ⟨rfl, by norm_num [maskFor, pointInPolygon, lines, linesFrom, toggleStep,
    edgeToggles, straddle, xCross]⟩

/-- C5 (code bug): with the two-vertex polygon x=[0,1], y=[0,1], the code
raises the `DimensionMismatch` error of line 40 — which fires for every
input — before the `len(polyx) < 3` check of line 42 can raise
`InsufficientVertices`. -/
theorem c5_insufficient_vertices_bug :
    contains [0, 1] [0, 1] (QueryInput.scalar 0) (QueryInput.scalar 0) =
        Except.error Err.DimensionMismatch ∧
      Err.DimensionMismatch ≠ Err.InsufficientVertices :=
  ⟨rfl, by decide⟩

/-- C9 (code bug): `contains` raises `DimensionMismatch` at line 40 for
the square polygon and scalar query (2,2) instead of returning `true`; the
classification loop (source lines 77-85) does produce the claimed values:
`true` at (2,2) and `false` at (5,5) for the square, and
`[true, false, true]` for the triangle (0,0),(10,0),(5,10) at the query
points [(5,5),(0,10),(5,1)]. -/
theorem c9_examples_bug :
    contains [0, 4, 4, 0] [0, 0, 4, 4]
        (QueryInput.scalar 2) (QueryInput.scalar 2) =
      Except.error Err.DimensionMismatch ∧
      pointInPolygon [(0, 0), (4, 0), (4, 4), (0, 4)] 2 2 = true ∧
      pointInPolygon [(0, 0), (4, 0), (4, 4), (0, 4)] 5 5 = false ∧
      maskFor [(0, 0), (10, 0), (5, 10)] [5, 0, 5] [5, 10, 1] =
        [true, false, true] :=
  ⟨rfl,
    by norm_num [pointInPolygon, lines, linesFrom, toggleStep, edgeToggles,
      straddle, xCross],
    by norm_num [pointInPolygon, lines, linesFrom, toggleStep, edgeToggles,
      straddle, xCross],
    by norm_num [maskFor, pointInPolygon, lines, linesFrom, toggleStep,
      edgeToggles, straddle, xCross]⟩

/-- C10 (code bug): the claim's classification of the vertex query point
(0,0) against the square is exactly what the loop of lines 77-85 computes
— the bottom edge does not straddle, the right edge toggles once, the
wrap-around edge from (0,4) to (0,0) crosses at `xCross = 0` and does not
toggle since `0 < 0` is false — so the point is classified inside; but
`contains` itself raises `DimensionMismatch` at line 40 instead of
returning that `true`. -/
theorem c10_vertex_point_bug :
    contains [0, 4, 4, 0] [0, 0, 4, 4]
        (QueryInput.scalar 0) (QueryInput.scalar 0) =
      Except.error Err.DimensionMismatch ∧
      pointInPolygon [(0, 0), (4, 0), (4, 4), (0, 4)] 0 0 = true ∧
      edgeToggles (0, 0) (4, 0) 0 0 = false ∧
      edgeToggles (4, 0) (4, 4) 0 0 = true ∧
      xCross (0, 4) (0, 0) 0 = 0 ∧
      edgeToggles (0, 4) (0, 0) 0 0 = false :=
  ⟨rfl,
    by norm_num [pointInPolygon, lines, linesFrom, toggleStep, edgeToggles,
      straddle, xCross],
    by norm_num [edgeToggles, straddle, xCross],
    by norm_num [edgeToggles, straddle, xCross],
    by norm_num [xCross],
    by norm_num [edgeToggles, straddle, xCross]⟩

/-! ### The edge walk, as the specification words it

`specEdges` and `specContains` restate the crossing test from the
specification text alone — exactly N closed edges, the first pair being
(last vertex, first vertex), then consecutive pairs in vertex order, the
parity flag toggled on each straddling edge whose interpolated crossing
lies strictly to the right — to be compared with the embedding of the
source's generator-based loop. -/

/-- The edge list as the specification describes it: the first pair is
(last vertex, first vertex), then the consecutive pairs in vertex order. -/
def specEdges : List Point → List (Point × Point)
  | [] => []
  | v :: rest =>
    ((v :: rest).getLast (List.cons_ne_nil v rest), v) :: (v :: rest).zip rest

/-- The containment verdict as the specification describes it: a parity
flag starting at false, toggled for each edge where exactly one of
(y0 > y), (y1 > y) holds and x is strictly less than the interpolated
crossing abscissa. -/
def specContains (vs : List Point) (x y : ℚ) : Bool :=
  (specEdges vs).foldl
    (fun flag e =>
      if (decide (e.1.2 > y) != decide (e.2.2 > y)) &&
          decide (x < (e.2.1 - e.1.1) * (y - e.1.2) / (e.2.2 - e.1.2) + e.1.1)
        then !flag else flag)
    false

theorem linesFrom_eq_zip (p : Point) (vs : List Point) :
    linesFrom p vs = (p :: vs).zip vs := by
  induction vs generalizing p with
  | nil => rfl
  | cons v rest ih => simp [linesFrom, ih, List.zip_cons_cons]

theorem lines_cons (v : Point) (rest : List Point) :
    lines (v :: rest) =
      linesFrom ((v :: rest).getLast (List.cons_ne_nil v rest)) (v :: rest) := by
  unfold lines
  rw [List.getLast?_eq_getLast (v :: rest) (List.cons_ne_nil v rest)]

theorem lines_eq_specEdges : ∀ vs : List Point, lines vs = specEdges vs
  | [] => rfl
  | v :: rest => by
    rw [lines_cons, linesFrom_eq_zip]
    simp [specEdges, List.zip_cons_cons]

theorem lines_length : ∀ vs : List Point, (lines vs).length = vs.length
  | [] => rfl
  | v :: rest => by
    rw [lines_cons, linesFrom_eq_zip]
    simp [List.length_zip]

theorem pointInPolygon_eq_spec (vs : List Point) (x y : ℚ) :
    pointInPolygon vs x y = specContains vs x y := by
  unfold pointInPolygon specContains
  rw [lines_eq_specEdges]
  rfl

/-- C1: for every valid polygon (equal coordinate lengths, at least three
vertices) and every query point, the classification walks exactly N closed
edges — the first pair (last vertex, first vertex), then consecutive pairs
in vertex order — starting a parity flag at false and toggling it on each
straddling edge whose interpolated crossing lies strictly to the right of
the query abscissa, returning the final flag. -/
theorem c1_edge_walk (px py : List ℚ) (x y : ℚ)
    (hlen : px.length = py.length) (hn : 3 ≤ px.length) :
    pointInPolygon (px.zip py) x y = specContains (px.zip py) x y ∧
      (lines (px.zip py)).length = px.length := by
  refine ⟨pointInPolygon_eq_spec _ x y, ?_⟩
  rw [lines_length, List.length_zip]
  omega

theorem c1_edge_walk_witness :
    (([0, 4, 4, 0] : List ℚ).length = ([0, 0, 4, 4] : List ℚ).length ∧
        3 ≤ ([0, 4, 4, 0] : List ℚ).length) ∧
      (pointInPolygon (([0, 4, 4, 0] : List ℚ).zip [0, 0, 4, 4]) 2 2 =
          specContains (([0, 4, 4, 0] : List ℚ).zip [0, 0, 4, 4]) 2 2 ∧
        (lines (([0, 4, 4, 0] : List ℚ).zip [0, 0, 4, 4])).length =
          ([0, 4, 4, 0] : List ℚ).length) :=
  ⟨⟨by decide, by decide⟩,
    c1_edge_walk [0, 4, 4, 0] [0, 0, 4, 4] 2 2 (by decide) (by decide)⟩

/-! ### Division safety of the crossing computation -/

theorem straddle_ne {p0 p1 : Point} {y : ℚ} (h : straddle p0 p1 y = true) :
    p0.2 ≠ p1.2 := by
  intro he
  rw [straddle, he] at h
  simp at h

/-- C6: the division in the crossing formula of line 83 sits in the second
conjunct of a short-circuit `and`, so it is evaluated only for edges
satisfying the straddle test, and for every such edge the denominator
`p1.y - p0.y` is nonzero. -/
theorem c6_straddle_guards_division (p0 p1 : Point) (y : ℚ)
    (h : straddle p0 p1 y = true) : p1.2 - p0.2 ≠ 0 :=
  sub_ne_zero.mpr (Ne.symm (straddle_ne h))

theorem c6_straddle_guards_division_witness :
    straddle ((0 : ℚ), (0 : ℚ)) ((0 : ℚ), (4 : ℚ)) 2 = true ∧
      (((0 : ℚ), (4 : ℚ)) : Point).2 - (((0 : ℚ), (0 : ℚ)) : Point).2 ≠ 0 := by
  have hs : straddle ((0 : ℚ), (0 : ℚ)) ((0 : ℚ), (4 : ℚ)) 2 = true := by
    norm_num [straddle]
  exact ⟨hs, c6_straddle_guards_division ((0 : ℚ), (0 : ℚ)) ((0 : ℚ), (4 : ℚ)) 2 hs⟩

/-! ### Independence of the query points -/

/-- C8: each query point is classified independently — the i-th entry of
the mask equals the verdict of the per-point loop on the i-th point, which
is also what a call carrying that point alone computes as its mask. -/
theorem c8_independent_points (vs : List Point) (lx ly : List ℚ) (i : ℕ)
    (hlen : lx.length = ly.length) (hi : i < lx.length) :
    (maskFor vs lx ly).getD i false =
        pointInPolygon vs (lx.getD i 0) (ly.getD i 0) ∧
      maskFor vs [lx.getD i 0] [ly.getD i 0] =
        [pointInPolygon vs (lx.getD i 0) (ly.getD i 0)] := by
  have hy : i < ly.length := by omega
  have hmi : i < (maskFor vs lx ly).length := by
    simp only [maskFor, List.length_map, List.length_zip]
    omega
  refine ⟨?_, rfl⟩
  rw [List.getD_eq_getElem _ _ hmi, List.getD_eq_getElem _ _ hi,
    List.getD_eq_getElem _ _ hy]
  simp [maskFor, List.getElem_map, List.getElem_zip]

theorem c8_independent_points_witness :
    (([2, 5] : List ℚ).length = ([2, 5] : List ℚ).length ∧
        0 < ([2, 5] : List ℚ).length) ∧
      ((maskFor [(0, 0), (4, 0), (4, 4), (0, 4)] [2, 5] [2, 5]).getD 0 false =
          pointInPolygon [(0, 0), (4, 0), (4, 4), (0, 4)]
            (([2, 5] : List ℚ).getD 0 0) (([2, 5] : List ℚ).getD 0 0) ∧
        maskFor [(0, 0), (4, 0), (4, 4), (0, 4)]
            [([2, 5] : List ℚ).getD 0 0] [([2, 5] : List ℚ).getD 0 0] =
          [pointInPolygon [(0, 0), (4, 0), (4, 4), (0, 4)]
            (([2, 5] : List ℚ).getD 0 0) (([2, 5] : List ℚ).getD 0 0)]) :=
  ⟨⟨rfl, by decide⟩,
    c8_independent_points [(0, 0), (4, 0), (4, 4), (0, 4)] [2, 5] [2, 5] 0
      rfl (by decide)⟩

/-! ### Orientation invariance

Reversing the vertex order turns the closed edge list into (a permutation
of) the same edges with endpoints swapped; each edge's contribution to the
crossing parity is invariant under swapping its endpoints, and the parity
fold is invariant under permutation of the edges. -/

theorem linesFrom_append (l1 l2 : List Point) (p : Point) :
    linesFrom p (l1 ++ l2) = linesFrom p l1 ++ linesFrom (l1.getLastD p) l2 := by
  induction l1 generalizing p with
  | nil => rfl
  | cons v t ih =>
    simp only [List.cons_append, linesFrom, List.append_eq, ih,
      List.getLastD_cons]

theorem linesFrom_reverse_concat (l : List Point) (p q : Point) :
    linesFrom q (l.reverse ++ [p]) =
      ((linesFrom p (l ++ [q])).map Prod.swap).reverse := by
  induction l generalizing p with
  | nil => rfl
  | cons v t ih =>
    rw [List.reverse_cons, linesFrom_append, List.getLastD_concat, ih]
    simp [linesFrom, List.reverse_cons]

theorem lines_concat (l : List Point) (q : Point) :
    lines (l ++ [q]) = linesFrom q (l ++ [q]) := by
  unfold lines
  rw [List.getLast?_concat]

theorem lines_reverse_perm (vs : List Point) :
    (lines vs.reverse).Perm ((lines vs).map Prod.swap) := by
  rcases vs with _ | ⟨p, m⟩
  · exact List.Perm.refl _
  rcases List.eq_nil_or_concat m with rfl | ⟨t, q, rfl⟩
  · exact List.Perm.refl _
  rw [List.concat_eq_append]
  have e1 : p :: (t ++ [q]) = (p :: t) ++ [q] := by simp
  have hvs : lines (p :: (t ++ [q])) = (q, p) :: linesFrom p (t ++ [q]) := by
    rw [e1, lines_concat]
    simp [linesFrom]
  have e2 : (p :: (t ++ [q])).reverse = (q :: t.reverse) ++ [p] := by simp
  have hrev : lines ((p :: (t ++ [q])).reverse) =
      (p, q) :: ((linesFrom p (t ++ [q])).map Prod.swap).reverse := by
    rw [e2, lines_concat]
    have e3 : (q :: t.reverse) ++ [p] = q :: (t.reverse ++ [p]) := by simp
    rw [e3]
    simp only [linesFrom]
    rw [linesFrom_reverse_concat]
  rw [hvs, hrev, List.map_cons]
  exact List.Perm.cons _ (List.reverse_perm _)

theorem straddle_comm (p0 p1 : Point) (y : ℚ) :
    straddle p1 p0 y = straddle p0 p1 y := by
  unfold straddle
  cases h0 : decide (p0.2 > y) <;> cases h1 : decide (p1.2 > y) <;> simp [h0, h1]

theorem xCross_swap {p0 p1 : Point} {y : ℚ} (h : p0.2 ≠ p1.2) :
    xCross p1 p0 y = xCross p0 p1 y := by
  unfold xCross
  have h1 : p1.2 - p0.2 ≠ 0 := sub_ne_zero.mpr (Ne.symm h)
  have h2 : p0.2 - p1.2 ≠ 0 := sub_ne_zero.mpr h
  field_simp
  ring

theorem edgeToggles_swap (p0 p1 : Point) (x y : ℚ) :
    edgeToggles p1 p0 x y = edgeToggles p0 p1 x y := by
  unfold edgeToggles
  rw [straddle_comm]
  by_cases h : straddle p0 p1 y = true
  · rw [xCross_swap (straddle_ne h)]
  · have hf : straddle p0 p1 y = false := by
      cases hs : straddle p0 p1 y
      · rfl
      · exact absurd hs h
    rw [hf]
    simp

instance toggleStep_rcomm (x y : ℚ) : RightCommutative (toggleStep x y) where
  right_comm b e1 e2 := by
    unfold toggleStep
    cases h1 : edgeToggles e1.1 e1.2 x y <;>
      cases h2 : edgeToggles e2.1 e2.2 x y <;> simp [h1, h2]

theorem pointInPolygon_reverse (vs : List Point) (x y : ℚ) :
    pointInPolygon vs.reverse x y = pointInPolygon vs x y := by
  unfold pointInPolygon
  rw [(lines_reverse_perm vs).foldl_eq false, List.foldl_map]
  have hstep : (fun (b : Bool) (e : Point × Point) =>
      toggleStep x y b (Prod.swap e)) = toggleStep x y := by
    funext b e
    have hsw := edgeToggles_swap e.1 e.2 x y
    simp only [toggleStep, Prod.fst_swap, Prod.snd_swap, hsw]
  rw [hstep]

theorem zip_reverse_of_length (px py : List ℚ) (h : px.length = py.length) :
    px.reverse.zip py.reverse = (px.zip py).reverse := by
  induction px generalizing py with
  | nil =>
    cases py
    · rfl
    · simp at h
  | cons a xs ih =>
    cases py with
    | nil => simp at h
    | cons b ys =>
      have hl : xs.length = ys.length := by simpa using h
      simp only [List.reverse_cons, List.zip_cons_cons]
      rw [List.zip_append (by simp [hl]), ih ys hl]
      simp

/-- C7: reversing the polygon's vertex order (both coordinate lists
reversed) changes no result: the call as a whole returns the same value,
and the per-point classification loop computes the same verdict for every
query point. -/
theorem c7_orientation_invariance (px py : List ℚ) (linex liney : QueryInput)
    (x y : ℚ) (hlen : px.length = py.length) :
    contains px.reverse py.reverse linex liney = contains px py linex liney ∧
      pointInPolygon (px.reverse.zip py.reverse) x y =
        pointInPolygon (px.zip py) x y := by
  refine ⟨rfl, ?_⟩
  rw [zip_reverse_of_length px py hlen, pointInPolygon_reverse]

theorem c7_orientation_invariance_witness :
    ([0, 4, 4, 0] : List ℚ).length = ([0, 0, 4, 4] : List ℚ).length ∧
      (contains ([0, 4, 4, 0] : List ℚ).reverse ([0, 0, 4, 4] : List ℚ).reverse
          (QueryInput.scalar 2) (QueryInput.scalar 2) =
        contains [0, 4, 4, 0] [0, 0, 4, 4]
          (QueryInput.scalar 2) (QueryInput.scalar 2) ∧
        pointInPolygon (([0, 4, 4, 0] : List ℚ).reverse.zip
            ([0, 0, 4, 4] : List ℚ).reverse) 2 2 =
          pointInPolygon (([0, 4, 4, 0] : List ℚ).zip [0, 0, 4, 4]) 2 2) :=
  ⟨by decide,
    c7_orientation_invariance [0, 4, 4, 0] [0, 0, 4, 4]
      (QueryInput.scalar 2) (QueryInput.scalar 2) 2 2 (by decide)⟩

end InPolygon
